import Mathlib

/-!
Verification of the cf-redislabs-broker service broker.

The definitions below shallowly embed the Go sources of the repository:

* `src/redislabs/apiclient/client.go` — the RLEC API client (status
  response decoding, `GetDatabase`, the creation poller);
* the CRDB coordinator (`CreateCRDB`, `GetCRDBSettings`, the task poller);
* `src/redislabs/instancebinders/default.go` — `Bind` and `getHost`;
* `src/redislabs/cluster/properties.go` — `InstanceCredentials`;
* the broker orchestrator, the state persister and the parameter
  translator, whose sources are not part of the snapshot and are modelled
  from the specification (each such definition is marked in its doc
  comment).

JSON values are modelled by the inductive `Json`; decoding into a Go
struct follows `encoding/json` semantics on the embedded struct types:
known tagged keys are read, unknown keys are ignored, absent keys leave
the zero value.
-/

namespace RedisLabs

/-- A JSON value, as handled by Go `encoding/json`. -/
inductive Json where
  | null : Json
  | str : String → Json
  | num : Int → Json
  | bool : Bool → Json
  | arr : List Json → Json
  | obj : List (String × Json) → Json

/-- Field lookup on a JSON object (first binding wins, as the embedded
objects never repeat a key). -/
def Json.getField : Json → String → Option Json
  | .obj fields, key => (fields.find? (fun p => p.1 == key)).map (·.2)
  | _, _ => none

/-- Go `encoding/json` reading of a `string` field: absent or
non-string leaves the zero value `""`. -/
def asString (j : Option Json) : String :=
  match j with
  | some (.str s) => s
  | _ => ""

/-- Go `encoding/json` reading of an `int` field. -/
def asInt (j : Option Json) : Int :=
  match j with
  | some (.num n) => n
  | _ => 0

/-- Go `encoding/json` reading of a `[]string` field. -/
def asStringList (j : Option Json) : List String :=
  match j with
  | some (.arr xs) => xs.map (fun x => match x with | .str s => s | _ => "")
  | _ => []

/-- `endpointResponse` from `src/redislabs/apiclient/client.go`:
`{dns_name, port, addr}`. -/
structure endpointResponse where
  DNSName : String
  Port : Int
  AddrList : List String

/-- `statusResponse` from `src/redislabs/apiclient/client.go`: the struct
the client decodes every `/v1/bdbs` status answer into.  Its only JSON
keys are `uid`, `crdt_guid`, `authentication_redis_pass`, `endpoints`
and `status`. -/
structure statusResponse where
  UID : Int
  CRDBGUID : String
  Password : String
  Endpoints : List endpointResponse
  Status : String

/-- Decoding one element of the `endpoints` array. -/
def decodeEndpoint (j : Json) : endpointResponse :=
  { DNSName := asString (j.getField "dns_name")
    Port := asInt (j.getField "port")
    AddrList := asStringList (j.getField "addr") }

/-- `json.Unmarshal` of a status answer into `statusResponse`
(`parseStatusResponse` in `client.go`): only the five tagged keys are
read; any other key of the answer is ignored. -/
def decodeStatusResponse (j : Json) : statusResponse :=
  { UID := asInt (j.getField "uid")
    CRDBGUID := asString (j.getField "crdt_guid")
    Password := asString (j.getField "authentication_redis_pass")
    Endpoints :=
      match j.getField "endpoints" with
      | some (.arr xs) => xs.map decodeEndpoint
      | _ => []
    Status := asString (j.getField "status") }

/-- `InstanceCredentials` from `src/redislabs/cluster/properties.go`,
with the `UID` produced by `client.go` (`strconv.Itoa`, hence a string). -/
structure InstanceCredentials where
  UID : String
  Name : String
  Host : String
  Port : Int
  IPList : List String
  Password : String

/-- The Go zero value `cluster.InstanceCredentials\x7b\x7d`. -/
def zeroCredentials : InstanceCredentials :=
  { UID := "", Name := "", Host := "", Port := 0, IPList := [], Password := "" }

/-- Errors produced by the API client. `dbIsNotActive` embeds the
sentinel `errDbIsNotActive`; `other` embeds every `fmt.Errorf` message. -/
inductive ApiError where
  | dbIsNotActive : ApiError
  | other : String → ApiError

/-- `GetDatabase` from `src/redislabs/apiclient/client.go` (lines
168-195), applied to an already decoded status payload: reject with
`errDbIsNotActive` unless `status == "active"`, then with
`No endpoints created` unless at least one endpoint exists, else build
the credentials from `Endpoints[0]`. -/
def GetDatabase (payload : statusResponse) : Except ApiError InstanceCredentials :=
  if payload.Status ≠ "active" then
    .error .dbIsNotActive
  else
    match payload.Endpoints with
    | [] => .error (.other "No endpoints created")
    | e :: _ =>
      .ok { UID := toString payload.UID
            Name := ""
            Host := e.DNSName
            Port := e.Port
            IPList := e.AddrList
            Password := payload.Password }

/-- The legacy-form status answer served by the repository's own test
suite (`broker_test.go`): `dns_address_master` and `endpoint_ip`
instead of `endpoints`. -/
def legacyStatusJson : Json :=
  .obj [("uid", .num 1),
        ("authentication_redis_pass", .str "pass"),
        ("endpoint_ip", .arr [.str "10.0.2.4"]),
        ("dns_address_master", .str "domain.com:11909"),
        ("status", .str "active")]

/-- C1: the claim states the API client accepts the legacy shape
`dns_address_master: "host:port"` plus `endpoint_ip` and would yield
credentials with host `domain.com`, port 11909 and ip list
`[10.0.2.4]`.  The code does not: `statusResponse` has no field for
either legacy key, so the test-suite answer decodes to an empty
endpoint list and `GetDatabase` fails with `No endpoints created`
even though the decoded status is `active`. -/
theorem getDatabase_ignores_legacy_shape :
    (decodeStatusResponse legacyStatusJson).Status = "active" ∧
    (decodeStatusResponse legacyStatusJson).Endpoints = [] ∧
    GetDatabase (decodeStatusResponse legacyStatusJson) =
      .error (.other "No endpoints created") := by
  refine ⟨rfl, rfl, rfl⟩

/-- C7: `GetDatabase` returns the `NotActive` sentinel whenever the
decoded status differs from `active`; when the status is `active` but
the endpoint list is empty it fails with the descriptive
`No endpoints created` error; and only when the status is `active` and
at least one endpoint exists does it return credentials built from
`Endpoints[0]`. -/
theorem getDatabase_status_cases (p : statusResponse) :
    (p.Status ≠ "active" → GetDatabase p = .error .dbIsNotActive) ∧
    (p.Status = "active" → p.Endpoints = [] →
      GetDatabase p = .error (.other "No endpoints created")) ∧
    (∀ e rest, p.Status = "active" → p.Endpoints = e :: rest →
      GetDatabase p = .ok
        { UID := toString p.UID, Name := "", Host := e.DNSName,
          Port := e.Port, IPList := e.AddrList, Password := p.Password }) := by
  refine ⟨fun h => ?_, fun h he => ?_, fun e rest h he => ?_⟩
  · simp [GetDatabase, h]
  · simp [GetDatabase, h, he]
  · simp [GetDatabase, h, he]

/-- Closed instantiation of `getDatabase_status_cases` at concrete
payloads exercising each of its three hypotheses. -/
theorem getDatabase_status_cases_witness :
    GetDatabase { UID := 1, CRDBGUID := "", Password := "p",
                  Endpoints := [], Status := "pending" } = .error .dbIsNotActive ∧
    GetDatabase { UID := 1, CRDBGUID := "", Password := "p",
                  Endpoints := [], Status := "active" } =
      .error (.other "No endpoints created") ∧
    GetDatabase { UID := 1, CRDBGUID := "", Password := "p",
                  Endpoints := [⟨"h", 7, ["i"]⟩], Status := "active" } =
      .ok { UID := "1", Name := "", Host := "h", Port := 7,
            IPList := ["i"], Password := "p" } :=
  ⟨(getDatabase_status_cases _).1 (by simp),
   (getDatabase_status_cases _).2.1 rfl rfl,
   (getDatabase_status_cases _).2.2 ⟨"h", 7, ["i"]⟩ [] rfl rfl⟩

/-- `GetCRDBSettings` from the CRDB half of the API client: fetch all
bdbs and scan for the first one whose `crdt_guid` matches the CRDB
GUID; reject if that database is not active or has no endpoints, else
build credentials from its first endpoint (with the GUID as UID). -/
def GetCRDBSettings (dbs : List statusResponse) (GUID : String) :
    Except ApiError InstanceCredentials :=
  match dbs.find? (fun db => db.CRDBGUID == GUID) with
  | none => .error (.other "DB not found")
  | some db =>
    if db.Status ≠ "active" then .error .dbIsNotActive
    else
      match db.Endpoints with
      | [] => .error (.other "No endpoints created")
      | e :: _ =>
        .ok { UID := GUID, Name := "", Host := e.DNSName,
              Port := e.Port, IPList := e.AddrList, Password := db.Password }

/-- The value the `CreateCRDB` poller sends on the readiness channel
once the task status reaches `finished`: the Go code reads
`instanceCredentials, _ := c.GetCRDBSettings(crdbGUID)` and sends
`instanceCredentials`, so every error branch of `GetCRDBSettings`
(which returns the zero struct alongside the error) yields the zero
credentials. -/
def crdbDeliveredCredentials (dbs : List statusResponse) (GUID : String) :
    InstanceCredentials :=
  match GetCRDBSettings dbs GUID with
  | .ok c => c
  | .error _ => zeroCredentials

/-- C9: in the CRDB creation flow, once the polled task status is
`finished` the error result of `GetCRDBSettings` is discarded: if no
database carries the matching `crdt_guid`, or the matching database is
not active or has no endpoints, the readiness channel still receives
the zero-value credentials (empty host, port 0, empty password) and
the caller proceeds as on success. -/
theorem crdb_settings_error_discarded (dbs : List statusResponse) (GUID : String)
    (h : dbs.find? (fun db => db.CRDBGUID == GUID) = none ∨
         ∃ db, dbs.find? (fun db => db.CRDBGUID == GUID) = some db ∧
               (db.Status ≠ "active" ∨ db.Endpoints = [])) :
    crdbDeliveredCredentials dbs GUID = zeroCredentials ∧
    (crdbDeliveredCredentials dbs GUID).Host = "" ∧
    (crdbDeliveredCredentials dbs GUID).Port = 0 ∧
    (crdbDeliveredCredentials dbs GUID).Password = "" := by
  have hz : crdbDeliveredCredentials dbs GUID = zeroCredentials := by
    rcases h with hnone | ⟨db, hfind, hbad⟩
    · simp [crdbDeliveredCredentials, GetCRDBSettings, hnone]
    · rcases hbad with hstat | hend
      · simp [crdbDeliveredCredentials, GetCRDBSettings, hfind, hstat]
      · by_cases hs : db.Status = "active"
        · simp [crdbDeliveredCredentials, GetCRDBSettings, hfind, hs, hend]
        · simp [crdbDeliveredCredentials, GetCRDBSettings, hfind, hs]
  exact ⟨hz, by rw [hz]; rfl, by rw [hz]; rfl, by rw [hz]; rfl⟩

/-- Closed instantiation of `crdb_settings_error_discarded`: a cluster
whose bdb list does not mention the GUID at all. -/
theorem crdb_settings_error_discarded_witness :
    crdbDeliveredCredentials
      [{ UID := 5, CRDBGUID := "other-guid", Password := "p",
         Endpoints := [⟨"h", 7, []⟩], Status := "active" }] "guid-1"
      = zeroCredentials :=
  (crdb_settings_error_discarded _ "guid-1" (Or.inl (by simp))).1

/-- `ServiceInstance`, the persisted record: platform instance id, the
plan it was provisioned under, and the stored credentials. -/
structure ServiceInstance where
  ID : String
  PlanID : String
  Credentials : InstanceCredentials

/-- `State`, the persisted broker state: the collection of provisioned
instances. -/
structure State where
  AvailableInstances : List ServiceInstance

/-- The broker error taxonomy. -/
inductive BrokerError where
  | serviceDoesNotExist : BrokerError
  | planDoesNotExist : BrokerError
  | instanceDoesNotExist : BrokerError
  | instanceAlreadyExists : BrokerError
  | creationFailed : String → BrokerError

/-- `getHost` from `src/redislabs/instancebinders/default.go`: return
the stored host when non-empty; otherwise fall back to
`GetDatabase(uid)`, and on any error of that call log and return the
empty string.  The outcome of the API call is passed in as
`apiResult`. -/
def getHost (apiResult : Except ApiError InstanceCredentials) (host : String) : String :=
  if host.length ≠ 0 then host
  else
    match apiResult with
    | .error _ => ""
    | .ok c => c.Host

/-- The credentials map a binding returns:
`\x7bhost, port, ip_list, password\x7d`. -/
structure BrokerBinding where
  host : String
  port : Int
  ip_list : List String
  password : String

/-- `Bind` from `src/redislabs/instancebinders/default.go`: scan the
loaded state for the first record with the requested instance id and
return its credentials (host via `getHost`), or fail with
`InstanceDoesNotExist`. -/
def Bind (state : State) (instanceID : String)
    (apiResult : Except ApiError InstanceCredentials) :
    Except BrokerError BrokerBinding :=
  match state.AvailableInstances.find? (fun i => i.ID == instanceID) with
  | some inst =>
    .ok { host := getHost apiResult inst.Credentials.Host
          port := inst.Credentials.Port
          ip_list := inst.Credentials.IPList
          password := inst.Credentials.Password }
  | none => .error .instanceDoesNotExist

/-- C10: the legacy-host fallback never fails a `Bind`: if the stored
host of the found record is empty and the `GetDatabase` fallback
itself returns an error, `Bind` still succeeds and the binding carries
the empty host instead of propagating the error. -/
theorem bind_legacy_host_fallback_error_ok (state : State) (instanceID : String)
    (e : ApiError) (inst : ServiceInstance)
    (hfind : state.AvailableInstances.find? (fun i => i.ID == instanceID) = some inst)
    (hhost : inst.Credentials.Host = "") :
    Bind state instanceID (.error e) =
      .ok { host := "", port := inst.Credentials.Port,
            ip_list := inst.Credentials.IPList,
            password := inst.Credentials.Password } := by
  simp [Bind, hfind, getHost, hhost]

/-- Closed instantiation of `bind_legacy_host_fallback_error_ok` on a
one-record state with an empty stored host and a failing API call. -/
theorem bind_legacy_host_fallback_error_ok_witness :
    Bind ⟨[⟨"i-1", "plan-1", { UID := "1", Name := "", Host := "",
                               Port := 11909, IPList := ["10.0.2.4"],
                               Password := "pass" }⟩]⟩
        "i-1" (.error .dbIsNotActive) =
      .ok { host := "", port := 11909, ip_list := ["10.0.2.4"], password := "pass" } :=
  bind_legacy_host_fallback_error_ok _ "i-1" .dbIsNotActive
    ⟨"i-1", "plan-1", { UID := "1", Name := "", Host := "", Port := 11909,
                        IPList := ["10.0.2.4"], Password := "pass" }⟩
    (by simp) rfl

/-- Lookup in a settings map (a Go `map[string]interface\x7b\x7d`,
embedded as an association list with unique keys). -/
def getSetting (m : List (String × Json)) (key : String) : Option Json :=
  (m.find? (fun p => p.1 == key)).map (·.2)

/-- Go map assignment `m[key] = v`: replace the binding when the key is
present, append it otherwise. -/
def setSetting : List (String × Json) → String → Json → List (String × Json)
  | [], key, v => [(key, v)]
  | p :: rest, key, v =>
    if p.1 == key then (key, v) :: rest else p :: setSetting rest key v

/-- Overlaying user parameters onto base settings, field by field. -/
def overlaySettings (base : List (String × Json)) (params : List (String × Json)) :
    List (String × Json) :=
  params.foldl (fun acc kv => setSetting acc kv.1 kv.2) base

theorem getSetting_set_self (m : List (String × Json)) (k : String) (v : Json) :
    getSetting (setSetting m k v) k = some v := by
  induction m with
  | nil => simp [setSetting, getSetting]
  | cons p rest ih =>
    by_cases h : p.1 = k
    · simp [setSetting, getSetting, h]
    · simpa [setSetting, getSetting, h] using ih

theorem getSetting_set_ne (m : List (String × Json)) (k k' : String) (v : Json)
    (h : k' ≠ k) : getSetting (setSetting m k v) k' = getSetting m k' := by
  induction m with
  | nil =>
    simp [setSetting, getSetting]
    exact Ne.symm h
  | cons p rest ih =>
    by_cases hp : p.1 = k
    · by_cases hp' : p.1 = k' <;> simp_all [setSetting, getSetting]
    · by_cases hp' : p.1 = k' <;> simp_all [setSetting, getSetting]

theorem getSetting_overlay_not_mem (base params : List (String × Json)) (k : String)
    (h : ∀ kv ∈ params, kv.1 ≠ k) :
    getSetting (overlaySettings base params) k = getSetting base k := by
  induction params generalizing base with
  | nil => rfl
  | cons kv rest ih =>
    have hk : kv.1 ≠ k := h kv (by simp)
    calc getSetting (overlaySettings (setSetting base kv.1 kv.2) rest) k
        = getSetting (setSetting base kv.1 kv.2) k :=
          ih _ (fun p hp => h p (by simp [hp]))
      _ = getSetting base k := getSetting_set_ne _ _ _ _ (fun he => hk he.symm)

/-- `ServiceInstanceConfig` from `src/redislabs/config`: the plan's
database template. -/
structure ServiceInstanceConfig where
  MemoryLimit : Int
  Replication : Bool
  ShardCount : Int
  Persistence : String
  SnapshotWrites : Int
  SnapshotSecs : Int

/-- The two-element `shard_key_regex` value emitted for sharded plans. -/
def shardKeyRegex : Json :=
  .arr [.obj [("regex", .str ".*\\\x7b(?<tag>.*)\\\x7d.*")],
        .obj [("regex", .str "(?<tag>.*)")]]

/-- Modelled from the spec: the sharding expansion of the parameter
translator (the translator's source is not part of the snapshot; only
its tests are). `shard_count > 1` emits `shards_count`,
`sharding:true`, `implicit_shard_key:true` and the two-element
`shard_key_regex`; otherwise both flags are false and no regex key is
emitted. -/
def shardingSettings (c : ServiceInstanceConfig) : List (String × Json) :=
  if 1 < c.ShardCount then
    [("shards_count", .num c.ShardCount),
     ("sharding", .bool true),
     ("implicit_shard_key", .bool true),
     ("shard_key_regex", shardKeyRegex)]
  else
    [("sharding", .bool false), ("implicit_shard_key", .bool false)]

/-- Modelled from the spec: the snapshot expansion of the parameter
translator. `persistence == "snapshot"` emits a single-element
`snapshot_policy` list carrying the plan's `\x7bwrites, secs\x7d`. -/
def snapshotSettings (c : ServiceInstanceConfig) : List (String × Json) :=
  if c.Persistence = "snapshot" then
    [("snapshot_policy",
      .arr [.obj [("writes", .num c.SnapshotWrites), ("secs", .num c.SnapshotSecs)]])]
  else []

/-- Modelled from the spec: the parameter translator mapping a plan's
`ServiceInstanceConfig` to the flat settings map consumed by
`CreateDatabase` / `UpdateDatabase`: `memory_limit → memory_size`,
`replication → replication`, `persistence → data_persistence`, plus
the sharding and snapshot expansions. -/
def translateConfig (c : ServiceInstanceConfig) : List (String × Json) :=
  [("memory_size", .num c.MemoryLimit),
   ("replication", .bool c.Replication),
   ("data_persistence", .str c.Persistence)]
  ++ shardingSettings c ++ snapshotSettings c

theorem getSetting_translate_sharding (c : ServiceInstanceConfig) :
    (1 < c.ShardCount →
      getSetting (translateConfig c) "shards_count" = some (.num c.ShardCount) ∧
      getSetting (translateConfig c) "sharding" = some (.bool true) ∧
      getSetting (translateConfig c) "implicit_shard_key" = some (.bool true) ∧
      getSetting (translateConfig c) "shard_key_regex" = some shardKeyRegex) ∧
    (¬ 1 < c.ShardCount →
      getSetting (translateConfig c) "sharding" = some (.bool false) ∧
      getSetting (translateConfig c) "implicit_shard_key" = some (.bool false) ∧
      getSetting (translateConfig c) "shard_key_regex" = none) := by
  constructor
  · intro h
    refine ⟨?_, ?_, ?_, ?_⟩ <;>
      simp [translateConfig, shardingSettings, snapshotSettings, getSetting, h,
            List.find?_append]
  · intro h
    refine ⟨?_, ?_, ?_⟩
    · simp [translateConfig, shardingSettings, snapshotSettings, getSetting, h,
            List.find?_append]
    · simp [translateConfig, shardingSettings, snapshotSettings, getSetting, h,
            List.find?_append]
    · simp [translateConfig, shardingSettings, snapshotSettings, getSetting, h,
            List.find?_append]

/-- C4: for every plan configuration and user parameter map (which, as
in the translator's tests, does not itself carry the sharding keys, so
the effective shard count is the plan's), the translated settings
satisfy the sharding dichotomy: shard count above one emits
`shards_count` equal to it, `sharding:true`, `implicit_shard_key:true`
and the two-element `shard_key_regex`; otherwise both flags are false
and no `shard_key_regex` key is emitted. -/
theorem translate_sharding_dichotomy (c : ServiceInstanceConfig)
    (params : List (String × Json))
    (hk : ∀ kv ∈ params,
      kv.1 ≠ "shards_count" ∧ kv.1 ≠ "sharding" ∧
      kv.1 ≠ "implicit_shard_key" ∧ kv.1 ≠ "shard_key_regex") :
    (1 < c.ShardCount →
      getSetting (overlaySettings (translateConfig c) params) "shards_count"
        = some (.num c.ShardCount) ∧
      getSetting (overlaySettings (translateConfig c) params) "sharding"
        = some (.bool true) ∧
      getSetting (overlaySettings (translateConfig c) params) "implicit_shard_key"
        = some (.bool true) ∧
      getSetting (overlaySettings (translateConfig c) params) "shard_key_regex"
        = some shardKeyRegex) ∧
    (¬ 1 < c.ShardCount →
      getSetting (overlaySettings (translateConfig c) params) "sharding"
        = some (.bool false) ∧
      getSetting (overlaySettings (translateConfig c) params) "implicit_shard_key"
        = some (.bool false) ∧
      getSetting (overlaySettings (translateConfig c) params) "shard_key_regex"
        = none) := by
  have h1 := getSetting_overlay_not_mem (translateConfig c) params "shards_count"
    (fun kv hkv => (hk kv hkv).1)
  have h2 := getSetting_overlay_not_mem (translateConfig c) params "sharding"
    (fun kv hkv => (hk kv hkv).2.1)
  have h3 := getSetting_overlay_not_mem (translateConfig c) params "implicit_shard_key"
    (fun kv hkv => (hk kv hkv).2.2.1)
  have h4 := getSetting_overlay_not_mem (translateConfig c) params "shard_key_regex"
    (fun kv hkv => (hk kv hkv).2.2.2)
  have hbase := getSetting_translate_sharding c
  rw [h1, h2, h3, h4]
  exact hbase

/-- Closed instantiation of `translate_sharding_dichotomy`: the sharded
plan of the repository's tests (memory 2048, two shards) with the user
parameter `name`. -/
theorem translate_sharding_dichotomy_witness :
    getSetting
      (overlaySettings
        (translateConfig
          { MemoryLimit := 2048, Replication := false, ShardCount := 2,
            Persistence := "", SnapshotWrites := 0, SnapshotSecs := 0 })
        [("name", .str "mydb")])
      "sharding" = some (.bool true) :=
  ((translate_sharding_dichotomy _ [("name", .str "mydb")]
      (by intro kv hkv; simp at hkv; subst hkv; refine ⟨by simp, by simp, by simp, by simp⟩)).1
    (by norm_num)).2.1

/-- Modelled from the spec: JSON serialization of stored credentials by
the state persister (the persister's source is not part of the
snapshot).  Every field of the record is written, as Go `json.Marshal`
does for the credentials struct. -/
def encodeCredentials (c : InstanceCredentials) : Json :=
  .obj [("uid", .str c.UID),
        ("name", .str c.Name),
        ("host", .str c.Host),
        ("port", .num c.Port),
        ("ip_list", .arr (c.IPList.map .str)),
        ("password", .str c.Password)]

/-- Modelled from the spec: JSON deserialization of stored credentials. -/
def decodeCredentials (j : Json) : InstanceCredentials :=
  { UID := asString (j.getField "uid")
    Name := asString (j.getField "name")
    Host := asString (j.getField "host")
    Port := asInt (j.getField "port")
    IPList := asStringList (j.getField "ip_list")
    Password := asString (j.getField "password") }

/-- Modelled from the spec: JSON serialization of one persisted record
`\x7bid, plan_id, credentials\x7d`. -/
def encodeInstance (i : ServiceInstance) : Json :=
  .obj [("id", .str i.ID),
        ("plan_id", .str i.PlanID),
        ("credentials", encodeCredentials i.Credentials)]

/-- Modelled from the spec: JSON deserialization of one persisted record. -/
def decodeInstance (j : Json) : ServiceInstance :=
  { ID := asString (j.getField "id")
    PlanID := asString (j.getField "plan_id")
    Credentials :=
      decodeCredentials (match j.getField "credentials" with
                         | some cj => cj
                         | none => .null) }

/-- Modelled from the spec: `Save` of the file-backed state persister.
The whole state is written as the single JSON document
`\x7b"available_instances": [...]\x7d`. -/
def Save (s : State) : Json :=
  .obj [("available_instances", .arr (s.AvailableInstances.map encodeInstance))]

/-- Modelled from the spec: `Load` of the file-backed state persister. -/
def Load (j : Json) : State :=
  { AvailableInstances :=
      match j.getField "available_instances" with
      | some (.arr xs) => xs.map decodeInstance
      | _ => [] }

theorem asStringList_encode (l : List String) :
    asStringList (some (.arr (l.map .str))) = l := by
  induction l with
  | nil => rfl
  | cons a rest ih => simpa [asStringList] using ih

theorem decode_encode_instance (i : ServiceInstance) :
    decodeInstance (encodeInstance i) = i := by
  cases i with
  | mk id planId creds =>
    cases creds
    simp [decodeInstance, encodeInstance, decodeCredentials, encodeCredentials,
          Json.getField, asString, asInt, asStringList_encode]

/-- C8: saving any persisted state and loading it back yields the same
state (even preserving the order of `available_instances`, hence in
particular equality up to reordering): every record's id, plan id and
credentials survive the round trip. -/
theorem load_save_roundtrip (s : State) : Load (Save s) = s := by
  cases s with
  | mk instances =>
    have hco : decodeInstance ∘ encodeInstance = id :=
      funext fun i => decode_encode_instance i
    simp [Load, Save, Json.getField, List.map_map, hco]

/-- The background poller spawned by `CreateDatabase`
(`src/redislabs/apiclient/client.go`, lines 111-129): sleep, call
`GetDatabase`, and repeat on any error until it succeeds, then deliver
the credentials on the readiness channel.  `responses` is the observed
finite prefix of the cluster's successive GET answers; `none` means no
answer of the prefix succeeded and the poller is still running. -/
def pollForCredentials : List statusResponse → Option InstanceCredentials
  | [] => none
  | r :: rest =>
    match GetDatabase r with
    | .ok c => some c
    | .error _ => pollForCredentials rest

theorem poll_success_has_active (rs : List statusResponse) (c : InstanceCredentials)
    (h : pollForCredentials rs = some c) :
    ∃ r ∈ rs, r.Status = "active" ∧ r.Endpoints ≠ [] ∧ GetDatabase r = .ok c := by
  induction rs with
  | nil => cases h
  | cons r rest ih =>
    cases hg : GetDatabase r with
    | ok cr =>
      simp only [pollForCredentials, hg, Option.some.injEq] at h
      subst h
      have hs : r.Status = "active" := by
        by_contra hs
        simp [GetDatabase, hs] at hg
      have he : r.Endpoints ≠ [] := by
        intro he
        simp [GetDatabase, hs, he] at hg
      exact ⟨r, by simp, hs, he, hg⟩
    | error e =>
      simp only [pollForCredentials, hg] at h
      obtain ⟨r', hr', hprop⟩ := ih h
      exact ⟨r', by simp [hr'], hprop⟩

/-- `ServicePlanConfig` from `src/redislabs/config`: a plan with its
database template (the Go field `ServiceInstanceConfig`, YAML key
`settings`). -/
structure ServicePlanConfig where
  ID : String
  Name : String
  Description : String
  Settings : ServiceInstanceConfig

/-- The part of the broker configuration the orchestrator consults. -/
structure BrokerConfig where
  ServiceID : String
  Plans : List ServicePlanConfig

/-- `ProvisionDetails`: the platform's provision request body. -/
structure ProvisionDetails where
  ServiceID : String
  PlanID : String
  Parameters : List (String × Json)

/-- Modelled from the spec: `Provision` of the broker orchestrator
(`redislabs/broker.go` is not part of the snapshot; only its tests
are).  Checks run in order: unknown service id, unknown plan id,
already-present instance id; then the translated settings are POSTed
and the call blocks on the readiness channel; only when credentials
arrive is the record appended to the state and saved.  The cluster
interaction after the accepted POST is abstracted by `responses`, the
successive status answers seen by the poller. -/
def Provision (conf : BrokerConfig) (state : State) (instanceID : String)
    (details : ProvisionDetails) (responses : List statusResponse) :
    Except BrokerError (State × InstanceCredentials) :=
  if details.ServiceID ≠ conf.ServiceID then
    .error .serviceDoesNotExist
  else if ¬ conf.Plans.any (fun p => p.ID == details.PlanID) then
    .error .planDoesNotExist
  else if state.AvailableInstances.any (fun i => i.ID == instanceID) then
    .error .instanceAlreadyExists
  else
    match pollForCredentials responses with
    | none => .error (.creationFailed "database did not become active")
    | some creds =>
      .ok (⟨state.AvailableInstances ++ [⟨instanceID, details.PlanID, creds⟩]⟩, creds)

/-- C2: credentials are never persisted unless the cluster reported an
active database: whenever `Provision` succeeds, the new state is the
old one with exactly the new record appended, and that record's
credentials are the result of a successful `GetDatabase` on one of the
polled answers — which requires status `active` and at least one
endpoint. -/
theorem provision_persists_only_after_active (conf : BrokerConfig) (state : State)
    (instanceID : String) (details : ProvisionDetails)
    (responses : List statusResponse) (s' : State) (c : InstanceCredentials)
    (h : Provision conf state instanceID details responses = .ok (s', c)) :
    s'.AvailableInstances
      = state.AvailableInstances ++ [⟨instanceID, details.PlanID, c⟩] ∧
    ∃ r ∈ responses, r.Status = "active" ∧ r.Endpoints ≠ [] ∧
      GetDatabase r = .ok c := by
  unfold Provision at h
  split_ifs at h
  cases hp : pollForCredentials responses with
  | none => rw [hp] at h; cases h
  | some creds =>
    rw [hp] at h
    have hc : creds = c ∧ s' = ⟨state.AvailableInstances ++ [⟨instanceID, details.PlanID, creds⟩]⟩ := by
      cases h
      exact ⟨rfl, rfl⟩
    obtain ⟨hcc, hss⟩ := hc
    subst hcc
    constructor
    · rw [hss]
    · exact poll_success_has_active responses creds hp

/-- A one-plan broker configuration for the concrete scenarios below. -/
def exampleConf : BrokerConfig :=
  ⟨"svc", [⟨"plan", "p", "", ⟨1024, true, 1, "disabled", 0, 0⟩⟩]⟩

/-- The provision request used in the concrete scenarios below. -/
def exampleDetails : ProvisionDetails := ⟨"svc", "plan", []⟩

/-- The active status answer of the test scenario of `broker_test.go`,
in the shape the checked-in client can read. -/
def exampleActiveResponse : statusResponse :=
  { UID := 1, CRDBGUID := "", Password := "pass",
    Endpoints := [⟨"domain.com", 11909, ["10.0.2.4"]⟩], Status := "active" }

/-- The credentials the client extracts from `exampleActiveResponse`. -/
def exampleCreds : InstanceCredentials :=
  { UID := "1", Name := "", Host := "domain.com", Port := 11909,
    IPList := ["10.0.2.4"], Password := "pass" }

/-- The record a successful provision of `some-id` appends. -/
def exampleRecord : ServiceInstance := ⟨"some-id", "plan", exampleCreds⟩

/-- Closed instantiation of `provision_persists_only_after_active` on a
one-plan configuration, an empty state and a single active answer. -/
theorem provision_persists_only_after_active_witness :
    Provision exampleConf ⟨[]⟩ "some-id" exampleDetails [exampleActiveResponse]
      = .ok (⟨[exampleRecord]⟩, exampleCreds) ∧
    (⟨[exampleRecord]⟩ : State).AvailableInstances
      = ([] : List ServiceInstance) ++ [⟨"some-id", exampleDetails.PlanID, exampleCreds⟩] := by
  have hp : Provision exampleConf ⟨[]⟩ "some-id" exampleDetails [exampleActiveResponse]
      = .ok (⟨[exampleRecord]⟩, exampleCreds) := rfl
  exact ⟨hp, (provision_persists_only_after_active exampleConf ⟨[]⟩ "some-id"
    exampleDetails [exampleActiveResponse] ⟨[exampleRecord]⟩ exampleCreds hp).1⟩

/-- C3: once `Provision` has succeeded for an instance id, a second
`Provision` with the same id (and the same request details) fails with
`InstanceAlreadyExists`, and the record created by the first call is
still in the state. -/
theorem provision_twice_same_id_rejected (conf : BrokerConfig) (state : State)
    (instanceID : String) (details : ProvisionDetails)
    (responses responses2 : List statusResponse) (s1 : State) (c : InstanceCredentials)
    (h : Provision conf state instanceID details responses = .ok (s1, c)) :
    Provision conf s1 instanceID details responses2 = .error .instanceAlreadyExists ∧
    (⟨instanceID, details.PlanID, c⟩ : ServiceInstance) ∈ s1.AvailableInstances := by
  have hs1 := (provision_persists_only_after_active conf state instanceID details
    responses s1 c h).1
  have hmem : (⟨instanceID, details.PlanID, c⟩ : ServiceInstance) ∈ s1.AvailableInstances := by
    rw [hs1]; simp
  have hsvc : ¬ details.ServiceID ≠ conf.ServiceID := by
    intro hne
    simp [Provision, hne] at h
  have hplan : conf.Plans.any (fun p => p.ID == details.PlanID) := by
    by_contra hp
    simp [Provision, hsvc, hp] at h
  have hany : s1.AvailableInstances.any (fun i => i.ID == instanceID) := by
    rw [hs1]
    simp
  constructor
  · simp [Provision, hsvc, hplan, hany]
  · exact hmem

/-- Closed instantiation of `provision_twice_same_id_rejected`: the
state produced by the witness scenario of C2 rejects a second
provision of `some-id`. -/
theorem provision_twice_same_id_rejected_witness :
    Provision exampleConf ⟨[exampleRecord]⟩ "some-id" exampleDetails []
      = .error .instanceAlreadyExists := by
  have hp : Provision exampleConf ⟨[]⟩ "some-id" exampleDetails [exampleActiveResponse]
      = .ok (⟨[exampleRecord]⟩, exampleCreds) := rfl
  exact (provision_twice_same_id_rejected exampleConf ⟨[]⟩ "some-id" exampleDetails
    [exampleActiveResponse] [] ⟨[exampleRecord]⟩ exampleCreds hp).1

/-- C6: a `Provision` whose details carry a service id different from
the configured one fails with `ServiceDoesNotExist` — this check runs
first, so the outcome does not depend on the plan id, the instance id
or the persisted state. -/
theorem provision_wrong_service_rejected (conf : BrokerConfig) (state : State)
    (instanceID : String) (details : ProvisionDetails)
    (responses : List statusResponse)
    (h : details.ServiceID ≠ conf.ServiceID) :
    Provision conf state instanceID details responses
      = .error .serviceDoesNotExist := by
  simp [Provision, h]

/-- Closed instantiation of `provision_wrong_service_rejected` on the
test scenario: requested service id `unknown` against configuration id
`test-service-id`. -/
theorem provision_wrong_service_rejected_witness :
    Provision exampleConf ⟨[]⟩ "some-id" ⟨"unknown", "plan", []⟩ []
      = .error .serviceDoesNotExist :=
  provision_wrong_service_rejected exampleConf ⟨[]⟩ "some-id" ⟨"unknown", "plan", []⟩ []
    (by simp [exampleConf])

/-- `UpdateDetails`: the platform's update request body.  An empty
`PlanID` means no new plan was supplied. -/
structure UpdateDetails where
  ServiceID : String
  PlanID : String
  Parameters : List (String × Json)

/-- Modelled from the spec: `Update` of the broker orchestrator
(`redislabs/broker.go` is not part of the snapshot; only its tests
are).  Check the service id, find the instance, resolve the base plan
(the supplied new plan, else the instance's current plan), translate
its defaults and overlay the user parameters field by field; the
result is the body PUT to the cluster. -/
def Update (conf : BrokerConfig) (state : State) (instanceID : String)
    (details : UpdateDetails) : Except BrokerError (List (String × Json)) :=
  if details.ServiceID ≠ conf.ServiceID then
    .error .serviceDoesNotExist
  else
    match state.AvailableInstances.find? (fun i => i.ID == instanceID) with
    | none => .error .instanceDoesNotExist
    | some inst =>
      let basePlanID := if details.PlanID = "" then inst.PlanID else details.PlanID
      match conf.Plans.find? (fun p => p.ID == basePlanID) with
      | none => .error .planDoesNotExist
      | some plan =>
        .ok (overlaySettings (translateConfig plan.Settings) details.Parameters)

/-- C5: an `Update` on an existing instance that supplies a known new
plan id builds the PUT body from the new plan's translated defaults
overlaid with the user parameters: user-supplied `memory_size` and
`data_persistence` override the plan's values, while the plan's
`replication` and (for a sharded plan) `shards_count` are kept when
not overridden. -/
theorem update_overlays_new_plan_defaults (conf : BrokerConfig) (state : State)
    (instanceID : String) (details : UpdateDetails)
    (inst : ServiceInstance) (plan : ServicePlanConfig) (m d : Json)
    (hsvc : details.ServiceID = conf.ServiceID)
    (hfind : state.AvailableInstances.find? (fun i => i.ID == instanceID) = some inst)
    (hpid : details.PlanID ≠ "")
    (hplan : conf.Plans.find? (fun p => p.ID == details.PlanID) = some plan)
    (hparams : details.Parameters = [("memory_size", m), ("data_persistence", d)])
    (hshard : 1 < plan.Settings.ShardCount) :
    Update conf state instanceID details
      = .ok (overlaySettings (translateConfig plan.Settings) details.Parameters) ∧
    getSetting (overlaySettings (translateConfig plan.Settings) details.Parameters)
      "memory_size" = some m ∧
    getSetting (overlaySettings (translateConfig plan.Settings) details.Parameters)
      "data_persistence" = some d ∧
    getSetting (overlaySettings (translateConfig plan.Settings) details.Parameters)
      "replication" = some (.bool plan.Settings.Replication) ∧
    getSetting (overlaySettings (translateConfig plan.Settings) details.Parameters)
      "shards_count" = some (.num plan.Settings.ShardCount) := by
  have hbody : Update conf state instanceID details
      = .ok (overlaySettings (translateConfig plan.Settings) details.Parameters) := by
    simp [Update, hsvc, hfind, hpid, hplan]
  have hover : overlaySettings (translateConfig plan.Settings) details.Parameters
      = setSetting (setSetting (translateConfig plan.Settings) "memory_size" m)
          "data_persistence" d := by
    rw [hparams]; rfl
  refine ⟨hbody, ?_, ?_, ?_, ?_⟩
  · rw [hover, getSetting_set_ne _ _ _ _ (by simp), getSetting_set_self]
  · rw [hover, getSetting_set_self]
  · rw [hover, getSetting_set_ne _ _ _ _ (by simp),
        getSetting_set_ne _ _ _ _ (by simp)]
    simp [translateConfig, getSetting, List.find?_append]
  · rw [hover, getSetting_set_ne _ _ _ _ (by simp),
        getSetting_set_ne _ _ _ _ (by simp)]
    exact ((getSetting_translate_sharding plan.Settings).1 hshard).1

/-- Closed instantiation of `update_overlays_new_plan_defaults` on the
two-plan update scenario of the repository's tests: plan-2 is sharded
with replication, the user overrides `memory_size` and
`data_persistence`. -/
theorem update_overlays_new_plan_defaults_witness :
    getSetting
      (overlaySettings
        (translateConfig
          { MemoryLimit := 700000000, Replication := true, ShardCount := 2,
            Persistence := "snapshot", SnapshotWrites := 100, SnapshotSecs := 10 })
        [("memory_size", .num 300000000), ("data_persistence", .str "aof")])
      "memory_size" = some (.num 300000000) :=
  (update_overlays_new_plan_defaults
    ⟨"test-service",
     [⟨"test-plan-1", "test-1", "", ⟨200000000, false, 1, "", 0, 0⟩⟩,
      ⟨"test-plan-2", "test-2", "",
       ⟨700000000, true, 2, "snapshot", 100, 10⟩⟩]⟩
    ⟨[⟨"test-instance", "test-plan-1", exampleCreds⟩]⟩
    "test-instance"
    ⟨"test-service", "test-plan-2",
     [("memory_size", .num 300000000), ("data_persistence", .str "aof")]⟩
    ⟨"test-instance", "test-plan-1", exampleCreds⟩
    ⟨"test-plan-2", "test-2", "", ⟨700000000, true, 2, "snapshot", 100, 10⟩⟩
    (.num 300000000) (.str "aof")
    rfl (by simp) (by simp) (by simp) rfl (by norm_num)).2.1

end RedisLabs
